import Mathlib

/-!
# The allow-all password authenticator

Shallow embedding of
`plugin/pkg/auth/authenticator/password/allow/allow.go`
and the properties of `AuthenticatePassword` on the authenticator built by
`NewAllow`.

Conventions of the embedding

* A Go `string` is an immutable sequence of bytes, so it is a `List UInt8`;
  the literal `""` is `[]` and `==` on strings is equality of the byte lists.
* A Go interface value that is either `nil` or holds a pointer to a struct is an
  `Option` of the struct's contents: `nil` is `none`, `&T{..}` is `some {..}`.
* A Go function with several results returns the tuple of them, in order.
-/

namespace Allow

/-- Go strings: byte sequences compared bytewise; the empty string is the empty list. -/
abbrev GoString := List UInt8

/-- Go values of the builtin `error` interface that are not `nil`, reduced to their
message. The authenticator never builds one; the type is there so that the third
result has somewhere to put an error if the code returned any. -/
structure GoError where
  msg : GoString
  deriving DecidableEq, Repr

/-- Modelled from the spec: the struct `user.DefaultInfo` of package `pkg/auth/user`,
whose declaration is outside this file. The spec calls it "a minimal structure carrying
a display name and a unique identifier for the authenticated principal"; the composite
literal in `AuthenticatePassword` sets exactly the fields `Name` and `UID`, both strings. -/
structure DefaultInfo where
  Name : GoString
  UID : GoString
  deriving DecidableEq, Repr

/-- Values of the interface `user.Info` as this package produces them: `nil`, or a
pointer to a `DefaultInfo` (its contents). -/
abbrev UserInfo := Option DefaultInfo

/-- The three results `(user.Info, bool, error)` of `AuthenticatePassword`. -/
abbrev AuthResult := UserInfo × Bool × Option GoError

/-- Modelled from the spec: the interface `authenticator.Password` of package
`pkg/auth/authenticator`, whose declaration is outside this file: "a capability that maps
a username/password pair to an authenticated identity or a rejection". An interface value
is the method it dispatches to. -/
structure Password where
  AuthenticatePassword : GoString → GoString → AuthResult

/-- The Go type `allowAuthenticator`, declared as `struct{}`: a type with no fields. -/
structure allowAuthenticator where
  deriving DecidableEq, Repr

/-- The method `AuthenticatePassword` of `allowAuthenticator`:
`if username == "" { return nil, false, nil }` and otherwise
`return &user.DefaultInfo{Name: username, UID: username}, true, nil`. -/
def allowAuthenticator.AuthenticatePassword (_ : allowAuthenticator)
    (username _password : GoString) : AuthResult :=
  if username = [] then
    (none, false, none)
  else
    (some { Name := username, UID := username }, true, none)

/-- The constructor `NewAllow`: `return allowAuthenticator{}`, seen through the interface
`authenticator.Password`. -/
def NewAllow : Password :=
  { AuthenticatePassword := allowAuthenticator.AuthenticatePassword {} }

/-! ## Unfolding lemmas -/

theorem NewAllow_apply (username password : GoString) :
    NewAllow.AuthenticatePassword username password =
      if username = [] then (none, false, none)
      else (some { Name := username, UID := username }, true, none) := rfl

theorem NewAllow_of_nonempty (username password : GoString) (h : username ≠ []) :
    NewAllow.AuthenticatePassword username password =
      (some { Name := username, UID := username }, true, none) := by
  rw [NewAllow_apply, if_neg h]

theorem NewAllow_of_empty (password : GoString) :
    NewAllow.AuthenticatePassword [] password = (none, false, none) := by
  rw [NewAllow_apply, if_pos rfl]

/-! ## Properties of `AuthenticatePassword` -/

/-- C1: for every non-empty username and every password, the empty one included,
`AuthenticatePassword` on the authenticator returned by `NewAllow` accepts: the identity
is not nil, `ok` is true and the error is nil. -/
theorem authenticate_accepts_nonempty (username password : GoString)
    (h : username ≠ []) :
    (NewAllow.AuthenticatePassword username password).1 ≠ none ∧
      (NewAllow.AuthenticatePassword username password).2.1 = true ∧
      (NewAllow.AuthenticatePassword username password).2.2 = none := by
  rw [NewAllow_of_nonempty username password h]
  exact ⟨Option.some_ne_none _, rfl, rfl⟩

/-- Witness for C1: the one-byte username `a` with the empty password is accepted. -/
theorem authenticate_accepts_nonempty_witness :
    ([97] : GoString) ≠ [] ∧
      (NewAllow.AuthenticatePassword [97] []).1 ≠ none ∧
      (NewAllow.AuthenticatePassword [97] []).2.1 = true ∧
      (NewAllow.AuthenticatePassword [97] []).2.2 = none :=
  ⟨by decide, authenticate_accepts_nonempty [97] [] (by decide)⟩

/-- C2: for every non-empty username and every password, the identity returned has `Name`
equal to the username and `UID` equal to the username, byte for byte, hence `Name = UID`. -/
theorem authenticate_identity_is_username (username password : GoString)
    (h : username ≠ []) :
    ∃ info : DefaultInfo,
      (NewAllow.AuthenticatePassword username password).1 = some info ∧
      info.Name = username ∧ info.UID = username ∧ info.Name = info.UID := by
  rw [NewAllow_of_nonempty username password h]
  exact ⟨{ Name := username, UID := username }, rfl, rfl, rfl, rfl⟩

/-- Witness for C2: the username ` Al ` (a space, upper case `A`, lower case `l`, a space)
comes back unchanged as both `Name` and `UID`. -/
theorem authenticate_identity_is_username_witness :
    ([32, 65, 108, 32] : GoString) ≠ [] ∧
      ∃ info : DefaultInfo,
        (NewAllow.AuthenticatePassword [32, 65, 108, 32] [112, 119]).1 = some info ∧
        info.Name = [32, 65, 108, 32] ∧ info.UID = [32, 65, 108, 32] ∧
        info.Name = info.UID :=
  ⟨by decide, authenticate_identity_is_username [32, 65, 108, 32] [112, 119] (by decide)⟩

/-- C3: for the empty username and every password, empty or not, `AuthenticatePassword`
rejects with a nil identity, `ok = false` and a nil error. -/
theorem authenticate_rejects_empty (password : GoString) :
    (NewAllow.AuthenticatePassword [] password).1 = none ∧
      (NewAllow.AuthenticatePassword [] password).2.1 = false ∧
      (NewAllow.AuthenticatePassword [] password).2.2 = none := by
  rw [NewAllow_of_empty password]
  exact ⟨rfl, rfl, rfl⟩

/-- C4: for every username and every password the error result of `AuthenticatePassword`
is nil, on acceptance and on rejection alike; the function is defined on every input. -/
theorem authenticate_error_is_nil (username password : GoString) :
    (NewAllow.AuthenticatePassword username password).2.2 = none := by
  rw [NewAllow_apply]
  split <;> rfl

/-- C5: the result of `AuthenticatePassword` does not depend on the password: for one
username and two passwords the identity contents, the `ok` flag and the error coincide. -/
theorem authenticate_password_irrelevant (username p1 p2 : GoString) :
    NewAllow.AuthenticatePassword username p1 =
      NewAllow.AuthenticatePassword username p2 := by
  rw [NewAllow_apply, NewAllow_apply]

/-- C6: the three results are consistent: `ok` is true exactly when the username is
non-empty, and the identity is non-nil exactly when `ok` is true. -/
theorem authenticate_results_consistent (username password : GoString) :
    ((NewAllow.AuthenticatePassword username password).2.1 = true ↔ username ≠ []) ∧
      ((NewAllow.AuthenticatePassword username password).1 ≠ none ↔
        (NewAllow.AuthenticatePassword username password).2.1 = true) := by
  rw [NewAllow_apply]
  by_cases h : username = []
  · simp [h]
  · simp [h]

/-- C7: the `UID` identifies the principal: for two non-empty usernames and any passwords,
identities with equal `UID` (or equal `Name`) come from equal usernames, and distinct
usernames get distinct `UID` and distinct `Name`. -/
theorem authenticate_uid_injective (u1 u2 p1 p2 : GoString) (i1 i2 : DefaultInfo)
    (h1 : u1 ≠ []) (h2 : u2 ≠ [])
    (r1 : (NewAllow.AuthenticatePassword u1 p1).1 = some i1)
    (r2 : (NewAllow.AuthenticatePassword u2 p2).1 = some i2) :
    ((i1.UID = i2.UID ∨ i1.Name = i2.Name) → u1 = u2) ∧
      (u1 ≠ u2 → i1.UID ≠ i2.UID ∧ i1.Name ≠ i2.Name) := by
  rw [NewAllow_of_nonempty u1 p1 h1] at r1
  rw [NewAllow_of_nonempty u2 p2 h2] at r2
  have e1 : i1 = { Name := u1, UID := u1 } := (Option.some.inj r1).symm
  have e2 : i2 = { Name := u2, UID := u2 } := (Option.some.inj r2).symm
  subst e1 e2
  refine ⟨?_, ?_⟩
  · rintro (h | h) <;> exact h
  · intro hne
    exact ⟨hne, hne⟩

/-- Witness for C7: the usernames `al` and `bo`, with the same password, are both accepted
and their identities differ in `UID` and in `Name`. -/
theorem authenticate_uid_injective_witness :
    (([97, 108] : GoString) ≠ [] ∧ ([98, 111] : GoString) ≠ [] ∧
      (NewAllow.AuthenticatePassword [97, 108] [120]).1 =
        some { Name := [97, 108], UID := [97, 108] } ∧
      (NewAllow.AuthenticatePassword [98, 111] [120]).1 =
        some { Name := [98, 111], UID := [98, 111] }) ∧
    ((((⟨[97, 108], [97, 108]⟩ : DefaultInfo).UID = (⟨[98, 111], [98, 111]⟩ : DefaultInfo).UID ∨
        (⟨[97, 108], [97, 108]⟩ : DefaultInfo).Name =
          (⟨[98, 111], [98, 111]⟩ : DefaultInfo).Name) →
        ([97, 108] : GoString) = [98, 111]) ∧
      (([97, 108] : GoString) ≠ [98, 111] →
        (⟨[97, 108], [97, 108]⟩ : DefaultInfo).UID ≠ (⟨[98, 111], [98, 111]⟩ : DefaultInfo).UID ∧
        (⟨[97, 108], [97, 108]⟩ : DefaultInfo).Name ≠
          (⟨[98, 111], [98, 111]⟩ : DefaultInfo).Name)) :=
  ⟨⟨by decide, by decide, by decide, by decide⟩,
    authenticate_uid_injective [97, 108] [98, 111] [120] [120]
      ⟨[97, 108], [97, 108]⟩ ⟨[98, 111], [98, 111]⟩
      (by decide) (by decide) (by decide) (by decide)⟩

end Allow
